import Mathlib

/-!
Verification of the core renderer of the `raytracer-rust` repository
(`raytracer/src/renderer.rs`), via a shallow embedding in Lean 4.

The renderer logic (`render`, `launch_ray`, `search_object_collision`,
`illumination_from_lights`, `ray_encounter_obstacle`) is translated from
`renderer.rs`.  The leaf vector/color arithmetic lives in `vector.rs` and
`colors.rs`, which are not part of the provided sources; those definitions
are modelled from the specification (Euclidean vectors with `f64`
components, colors with three floating components).  `f64` values are
modelled as real numbers.
-/

namespace RayTracer

/-- Modelled from the spec: `vector.rs` is not among the provided sources.
A 3-dimensional vector with floating-point (modelled as real) components. -/
structure Vec3 where
  x : ℝ
  y : ℝ
  z : ℝ

/-- Modelled from the spec: Euclidean distance between two points
(`Vec3::distance` in `vector.rs`). -/
noncomputable def Vec3.distance (p q : Vec3) : ℝ :=
  Real.sqrt ((p.x - q.x) ^ 2 + (p.y - q.y) ^ 2 + (p.z - q.z) ^ 2)

/-- Modelled from the spec: Euclidean norm (`Vec3::norm` in `vector.rs`). -/
noncomputable def Vec3.norm (v : Vec3) : ℝ :=
  Real.sqrt (v.x ^ 2 + v.y ^ 2 + v.z ^ 2)

/-- Modelled from the spec: vector going from `a` to `b`
(`Vec3::between_points` in `vector.rs`). -/
def Vec3.between_points (a b : Vec3) : Vec3 :=
  ⟨b.x - a.x, b.y - a.y, b.z - a.z⟩

/-- Modelled from the spec: scaling a vector to unit norm
(`Vec3::normalize` in `vector.rs`; the value at a zero vector is
irrelevant to every claim proved below). -/
noncomputable def Vec3.normalize (v : Vec3) : Vec3 :=
  ⟨v.x / v.norm, v.y / v.norm, v.z / v.norm⟩

/-- Modelled from the spec: dot product (`Vec3::dot_product`). -/
def Vec3.dot_product (a b : Vec3) : ℝ :=
  a.x * b.x + a.y * b.y + a.z * b.z

/-- Modelled from the spec: reflection of `v` on a surface of normal `n`
(`Vec3::reflect`); the exact formula is irrelevant to every claim below,
only that it is some function of `v` and `n`. -/
def Vec3.reflect (v n : Vec3) : Vec3 :=
  ⟨v.x - 2 * v.dot_product n * n.x,
   v.y - 2 * v.dot_product n * n.y,
   v.z - 2 * v.dot_product n * n.z⟩

/-- Modelled from the spec: `colors.rs` is not among the provided sources.
A color with three floating (modelled as real) components, additive and
scalar/component-wise multiplicative, unclamped. -/
structure Color where
  red : ℝ
  green : ℝ
  blue : ℝ

/-- `Color::BLACK`. -/
def Color.BLACK : Color := ⟨0, 0, 0⟩

instance : Add Color :=
  ⟨fun a b => ⟨a.red + b.red, a.green + b.green, a.blue + b.blue⟩⟩

/-- Component-wise product of two colors. -/
instance : Mul Color :=
  ⟨fun a b => ⟨a.red * b.red, a.green * b.green, a.blue * b.blue⟩⟩

/-- Scaling a color by a scalar on the left (`f64 * Color`). -/
instance : HMul ℝ Color Color :=
  ⟨fun s c => ⟨s * c.red, s * c.green, s * c.blue⟩⟩

/-- Scaling a color by a scalar on the right (`Color * f64`). -/
instance : HMul Color ℝ Color :=
  ⟨fun c s => ⟨c.red * s, c.green * s, c.blue * s⟩⟩

/-- `primitives::Ray`: origin point and direction vector. -/
structure Ray where
  source : Vec3
  direction : Vec3

/-- Modelled from the spec: `Ray::ray_from_to` (in `primitives.rs`, not
among the provided sources) builds the ray from a surface point toward a
target position. -/
def Ray.ray_from_to (a b : Vec3) : Ray :=
  ⟨a, Vec3.between_points a b⟩

/-- The `Transparency` effect descriptor: attenuation coefficient. -/
structure Transparency where
  alpha : ℝ

/-- The `Phong` effect descriptor: shininess exponent and luminosity
coefficient. -/
structure Phong where
  size : ℕ
  lum_coeff : ℝ

/-- The effects descriptor of a scene object: optional Phong highlight,
optional transparency. -/
structure Effects where
  phong : Option Phong
  transparency : Option Transparency

/-- A scene object, as the capabilities the renderer consumes from
`AnySceneObject`: intersection test, surface normal at a point (possibly
absent), color at a point, and the effects descriptor.  The geometric
shapes and textures themselves are external collaborators, so the
capabilities are arbitrary functions. -/
structure SceneObject where
  check_collision : Ray → Option Vec3
  normal_at : Vec3 → Option Vec3
  color_at : Vec3 → Color
  effects : Effects

/-- A light, as the capabilities the renderer consumes from
`AnyLightObject`: source position and color at a point. -/
structure LightObject where
  source : Vec3
  light_color_at : Vec3 → Color

/-- The render options carried by a scene (`scene.options`): world
(background) color, optional ambient light color, and maximum recursion
depth (a nonnegative integer cast to `i8` by `render`). -/
structure SceneOptions where
  world_color : Color
  ambient_light : Option Color
  maximum_light_recursion : ℕ

/-- The camera capability consumed by `render`: a ray generator yielding
the sequence of `(x, y, ray)` triples for a canvas of the given width and
height. -/
structure Camera where
  generate_rays : ℕ → ℕ → List (ℕ × ℕ × Ray)

/-- `scene::Scene`: camera, objects, lights, options. -/
structure Scene where
  camera : Camera
  objects : List SceneObject
  lights : List LightObject
  options : SceneOptions

/-- `renderer::RenderOptions`: canvas dimensions. -/
structure RenderOptions where
  canvas_width : ℕ
  canvas_height : ℕ

/-- The `DrawCanvas` capability: drawing a pixel may fail with a message.
The canvas state itself is external; `render` below returns the trace of
draw invocations it performs. -/
structure DrawCanvas where
  draw : ℕ → ℕ → Color → Except String Unit

/-- The loop body state of `search_object_collision` in `renderer.rs`:
the optional nearest object found so far together with its collision
point.  In the source the shortest distance is kept in a separate
variable initialized to `f64::MAX`; while no object has been retained
that sentinel is never smaller than a candidate distance, so the
accumulator being `none` models it faithfully, and once an object is
retained the stored distance always equals the distance of the retained
collision point from the ray source, which is recomputed here. -/
noncomputable def collisionFold (ray : Ray) :
    Option (SceneObject × Vec3) → List SceneObject → Option (SceneObject × Vec3)
  | acc, [] => acc
  | acc, object_candidate :: rest =>
    match object_candidate.check_collision ray with
    | none => collisionFold ray acc rest
    | some collision_point_candidate =>
      let d := collision_point_candidate.distance ray.source
      if d ≤ 1e-12 then collisionFold ray acc rest
      else
        match acc with
        | none => collisionFold ray (some (object_candidate, collision_point_candidate)) rest
        | some (_, point) =>
          if d < point.distance ray.source then
            collisionFold ray (some (object_candidate, collision_point_candidate)) rest
          else collisionFold ray acc rest

/-- `renderer.rs`, `search_object_collision`: nearest-hit resolution over
the object list, discarding hits at distance `≤ 1e-12` from the ray
source. -/
noncomputable def search_object_collision (ray : Ray) (objects : List SceneObject) :
    Option (SceneObject × Vec3) :=
  collisionFold ray none objects

/-- `renderer.rs`, `ray_encounter_obstacle`: whether some object blocks
the ray between its source and `destination`.  The source iterates with
an early `return true`; `List.any` has the same value. -/
noncomputable def ray_encounter_obstacle (ray : Ray) (destination : Vec3)
    (objects : List SceneObject) : Bool :=
  let source := ray.source
  let light_distance := (Vec3.between_points source destination).norm
  objects.any fun candidate_object =>
    match candidate_object.check_collision ray with
    | none => false
    | some obstruction_point =>
      let object_distance := (Vec3.between_points source obstruction_point).norm
      if object_distance > light_distance then false
      else if object_distance ≤ 1e-12 then false
      else true

/-- The body of the per-light loop of `illumination_from_lights` in
`renderer.rs`, acting on the running total color. -/
noncomputable def illuminationStep (object : SceneObject) (surface_point : Vec3)
    (objects : List SceneObject) (camera_ray : Ray) (total_color : Color)
    (current_light : LightObject) : Except String Color :=
  let light_ray := Ray.ray_from_to surface_point current_light.source
  if ray_encounter_obstacle light_ray current_light.source objects then
    Except.ok total_color
  else
    let light_direction := light_ray.direction.normalize
    let light_color := current_light.light_color_at surface_point
    match object.normal_at surface_point with
    | none => Except.error "No normal found"
    | some surface_normal =>
      let ray_reflexion := (camera_ray.direction.reflect surface_normal).normalize
      let reflection_angle := light_direction.dot_product surface_normal
      let total₁ :=
        if reflection_angle > 0 then
          total_color + reflection_angle * (light_color * object.color_at surface_point)
        else total_color
      match object.effects.phong with
      | none => Except.ok total₁
      | some phong =>
        let specular_angle := light_direction.dot_product ray_reflexion
        if specular_angle > 0 then
          Except.ok (total₁ + light_color * (specular_angle ^ phong.size) * phong.lum_coeff)
        else Except.ok total₁

/-- The per-light loop of `illumination_from_lights`, threading the total
color and propagating the first error. -/
noncomputable def illuminationFold (object : SceneObject) (surface_point : Vec3)
    (objects : List SceneObject) (camera_ray : Ray) :
    Color → List LightObject → Except String Color
  | total_color, [] => Except.ok total_color
  | total_color, current_light :: rest =>
    match illuminationStep object surface_point objects camera_ray total_color current_light with
    | Except.error e => Except.error e
    | Except.ok t => illuminationFold object surface_point objects camera_ray t rest

/-- `renderer.rs`, `illumination_from_lights`: direct illumination of a
surface point, accumulated over all lights starting from black. -/
noncomputable def illumination_from_lights (object : SceneObject) (surface_point : Vec3)
    (lights : List LightObject) (objects : List SceneObject) (camera_ray : Ray) :
    Except String Color :=
  illuminationFold object surface_point objects camera_ray Color.BLACK lights

/-- `renderer.rs`, `launch_ray`: depth-bounded recursive ray evaluation.
The depth is an `i8` in the source; the guard `depth < 0` keeps the
recursive argument at `depth - 1 ≥ -1`, so the integer model is exact. -/
noncomputable def launch_ray (camera_ray : Ray) (scene : Scene) (depth : ℤ) :
    Except String Color :=
  if depth < 0 then Except.ok Color.BLACK
  else
    match search_object_collision camera_ray scene.objects with
    | none => Except.ok scene.options.world_color
    | some (nearest_object, collision_point) =>
      match illumination_from_lights nearest_object collision_point scene.lights
          scene.objects camera_ray with
      | Except.error e => Except.error e
      | Except.ok illum =>
        let total₀ := Color.BLACK + illum
        let afterRefraction : Except String Color :=
          match nearest_object.effects.transparency with
          | none => Except.ok total₀
          | some transparency =>
            match search_object_collision camera_ray scene.objects with
            | none => Except.ok total₀
            | some (_, exit_point) =>
              match launch_ray ⟨exit_point, camera_ray.direction⟩ scene (depth - 1) with
              | Except.error e => Except.error e
              | Except.ok rec_color => Except.ok (total₀ + transparency.alpha * rec_color)
        match afterRefraction with
        | Except.error e => Except.error e
        | Except.ok total₁ =>
          Except.ok
            (match scene.options.ambient_light with
             | none => total₁
             | some ambient_light =>
               total₁ + ambient_light * nearest_object.color_at collision_point)
termination_by (depth + 1).toNat
decreasing_by
  omega

/-- A fuel-bounded copy of `launch_ray`, used to express its
termination: it returns `none` when the fuel runs out before the
recursion bottoms out, and otherwise the same result as `launch_ray`. -/
noncomputable def launchRayFuel : ℕ → Ray → Scene → ℤ → Option (Except String Color)
  | 0, _, _, _ => none
  | fuel + 1, camera_ray, scene, depth =>
    if depth < 0 then some (Except.ok Color.BLACK)
    else
      match search_object_collision camera_ray scene.objects with
      | none => some (Except.ok scene.options.world_color)
      | some (nearest_object, collision_point) =>
        match illumination_from_lights nearest_object collision_point scene.lights
            scene.objects camera_ray with
        | Except.error e => some (Except.error e)
        | Except.ok illum =>
          let total₀ := Color.BLACK + illum
          let afterRefraction : Option (Except String Color) :=
            match nearest_object.effects.transparency with
            | none => some (Except.ok total₀)
            | some transparency =>
              match search_object_collision camera_ray scene.objects with
              | none => some (Except.ok total₀)
              | some (_, exit_point) =>
                match launchRayFuel fuel ⟨exit_point, camera_ray.direction⟩ scene (depth - 1) with
                | none => none
                | some (Except.error e) => some (Except.error e)
                | some (Except.ok rec_color) =>
                  some (Except.ok (total₀ + transparency.alpha * rec_color))
          match afterRefraction with
          | none => none
          | some (Except.error e) => some (Except.error e)
          | some (Except.ok total₁) =>
            some (Except.ok
              (match scene.options.ambient_light with
               | none => total₁
               | some ambient_light =>
                 total₁ + ambient_light * nearest_object.color_at collision_point))

/-- The per-pixel loop of `render`: for each `(x, y, camera_ray)` yielded
by the camera, evaluate `launch_ray` at the configured maximum depth and
draw at `(x, canvas_height - y)`.  The first component of the result is
the ordered trace of draw invocations performed (including a failing
one); the second is the propagated outcome. -/
noncomputable def renderLoop (scene : Scene) (canvas : DrawCanvas) (options : RenderOptions) :
    List (ℕ × ℕ × Ray) → List (ℕ × ℕ × Color) × Except String Unit
  | [] => ([], Except.ok ())
  | (x, y, camera_ray) :: rest =>
    match launch_ray camera_ray scene (scene.options.maximum_light_recursion : ℤ) with
    | Except.error e => ([], Except.error e)
    | Except.ok color =>
      match canvas.draw x (options.canvas_height - y) color with
      | Except.error e => ([(x, options.canvas_height - y, color)], Except.error e)
      | Except.ok _ =>
        let result := renderLoop scene canvas options rest
        ((x, options.canvas_height - y, color) :: result.1, result.2)

/-- `renderer.rs`, `render`: fails upfront when the scene has no light,
otherwise processes every ray yielded by the camera. -/
noncomputable def render (scene : Scene) (canvas : DrawCanvas) (options : RenderOptions) :
    List (ℕ × ℕ × Color) × Except String Unit :=
  if scene.lights.isEmpty then ([], Except.error "There is no light in the scene")
  else
    renderLoop scene canvas options
      (scene.camera.generate_rays options.canvas_width options.canvas_height)

/-! ### Helper lemmas -/

lemma sqrt_eval {a b : ℝ} (hb : 0 ≤ b) (h : b ^ 2 = a) : Real.sqrt a = b := by
  rw [← h, Real.sqrt_sq hb]

/-- If no object reports a hit beyond the `1e-12` threshold, the
collision fold leaves its accumulator untouched. -/
lemma collisionFold_of_no_valid_hit (ray : Ray) (objects : List SceneObject)
    (h : ∀ o ∈ objects, ∀ p, o.check_collision ray = some p →
      Vec3.distance p ray.source ≤ 1e-12) :
    ∀ acc, collisionFold ray acc objects = acc := by
  induction objects with
  | nil => intro acc; rfl
  | cons o rest ih =>
    intro acc
    have hrest : ∀ o ∈ rest, ∀ p, o.check_collision ray = some p →
        Vec3.distance p ray.source ≤ 1e-12 := by
      intro o' ho' p hp
      exact h o' (List.mem_cons_of_mem _ ho') p hp
    cases hc : o.check_collision ray with
    | none => rw [collisionFold, hc]; exact ih hrest acc
    | some p =>
      have hd : Vec3.distance p ray.source ≤ 1e-12 := h o (List.mem_cons_self _ _) p hc
      rw [collisionFold, hc]
      simp only [if_pos hd]
      exact ih hrest acc

/-! ### Concrete inputs used by the witnesses -/

/-- A camera yielding no pixel at all. -/
def sampleCamera : Camera := ⟨fun _ _ => []⟩

def sampleRay : Ray := ⟨⟨0, 0, 0⟩, ⟨0, 0, 1⟩⟩

def sampleLight : LightObject := ⟨⟨0, 0, 10⟩, fun _ => ⟨1, 1, 1⟩⟩

def sampleSceneOptions : SceneOptions := ⟨⟨0.1, 0.2, 0.3⟩, none, 0⟩

/-- A scene with one light and no object. -/
def sampleScene : Scene := ⟨sampleCamera, [], [sampleLight], sampleSceneOptions⟩

/-- A scene with no light at all. -/
def noLightScene : Scene := ⟨sampleCamera, [], [], sampleSceneOptions⟩

/-- A canvas whose draws always succeed. -/
def okCanvas : DrawCanvas := ⟨fun _ _ _ => Except.ok ()⟩

def sampleRenderOptions : RenderOptions := ⟨5, 5⟩

/-! ### Claims -/

/-- C4: for every scene and every depth strictly below zero, `launch_ray`
returns exact black.  The statement is universally quantified over the
scene and the ray, so the result does not depend on the scene contents
and in particular involves no intersection search. -/
theorem launch_ray_neg_depth (camera_ray : Ray) (scene : Scene) (depth : ℤ)
    (h : depth < 0) : launch_ray camera_ray scene depth = Except.ok Color.BLACK := by
  rw [launch_ray]
  simp [h]

theorem launch_ray_neg_depth_witness :
    (-1 : ℤ) < 0 ∧ launch_ray sampleRay sampleScene (-1) = Except.ok Color.BLACK :=
  ⟨by decide, launch_ray_neg_depth sampleRay sampleScene (-1) (by decide)⟩

/-- C5: for every ray at depth `≥ 0` that intersects no object once hits
at distance `≤ 1e-12` are discarded, `launch_ray` returns the scene's
configured world (background) color. -/
theorem launch_ray_no_hit (camera_ray : Ray) (scene : Scene) (depth : ℤ)
    (h0 : 0 ≤ depth)
    (h : ∀ o ∈ scene.objects, ∀ p, o.check_collision camera_ray = some p →
      Vec3.distance p camera_ray.source ≤ 1e-12) :
    launch_ray camera_ray scene depth = Except.ok scene.options.world_color := by
  have hs : search_object_collision camera_ray scene.objects = none :=
    collisionFold_of_no_valid_hit camera_ray scene.objects h none
  rw [launch_ray, if_neg (by omega), hs]

theorem launch_ray_no_hit_witness :
    launch_ray sampleRay sampleScene 0 = Except.ok sampleScene.options.world_color :=
  launch_ray_no_hit sampleRay sampleScene 0 (by decide) (by intro o ho; simp [sampleScene] at ho)

/-- C6: whenever the light list is empty, `render` fails with the
no-light error.  The statement is universally quantified over the camera
and the canvas, so the error is produced before any ray is requested from
the camera, and the (empty) trace of draw invocations shows the canvas
draw capability is never invoked. -/
theorem render_no_light (scene : Scene) (canvas : DrawCanvas) (options : RenderOptions)
    (h : scene.lights = []) :
    render scene canvas options = ([], Except.error "There is no light in the scene") := by
  unfold render
  rw [h]
  rfl

theorem render_no_light_witness :
    render noLightScene okCanvas sampleRenderOptions =
      ([], Except.error "There is no light in the scene") :=
  render_no_light noLightScene okCanvas sampleRenderOptions rfl

lemma launchRayFuel_spec : ∀ n : ℕ, ∀ depth : ℤ, (depth + 1).toNat = n →
    ∀ camera_ray scene,
      launchRayFuel (n + 1) camera_ray scene depth = some (launch_ray camera_ray scene depth) := by
  intro n
  induction n using Nat.strong_induction_on with
  | _ n ih =>
    intro depth hdepth camera_ray scene
    rw [launchRayFuel, launch_ray]
    by_cases h : depth < 0
    · simp [h]
    · rw [if_neg h, if_neg h]
      cases hsearch : search_object_collision camera_ray scene.objects with
      | none => rfl
      | some obj_pt =>
        obtain ⟨nearest_object, collision_point⟩ := obj_pt
        cases hillum : illumination_from_lights nearest_object collision_point scene.lights
            scene.objects camera_ray with
        | error e => simp [hillum]
        | ok illum =>
          simp only [hillum]
          cases htr : nearest_object.effects.transparency with
          | none => simp [htr]
          | some transparency =>
            have hd : 0 ≤ depth := not_lt.mp h
            have hn : n = (depth - 1 + 1).toNat + 1 := by omega
            have hrec := ih ((depth - 1 + 1).toNat) (by omega) (depth - 1) rfl
              ⟨collision_point, camera_ray.direction⟩ scene
            rw [hn]
            simp only [htr, hrec]
            cases launch_ray ⟨collision_point, camera_ray.direction⟩ scene (depth - 1) with
            | error e => simp
            | ok rc => simp

/-- C3 (amended): the shadow test reports occlusion exactly when some
object's reported intersection lies at a distance strictly greater than
`1e-12` and less than OR EQUAL to the light distance: the source skips a
candidate only when `object_distance > light_distance`, so a hit exactly
at the light distance occludes. -/
theorem ray_encounter_obstacle_iff (ray : Ray) (destination : Vec3)
    (objects : List SceneObject) :
    ray_encounter_obstacle ray destination objects = true ↔
      ∃ o ∈ objects, ∃ p, o.check_collision ray = some p ∧
        1e-12 < (Vec3.between_points ray.source p).norm ∧
        (Vec3.between_points ray.source p).norm ≤
          (Vec3.between_points ray.source destination).norm := by
  unfold ray_encounter_obstacle
  rw [List.any_eq_true]
  refine exists_congr fun o => and_congr_right fun _ => ?_
  cases hc : o.check_collision ray with
  | none => simp
  | some p =>
    simp only [hc, Option.some.injEq]
    constructor
    · intro ht
      split_ifs at ht with h1 h2
      exact ⟨p, rfl, not_le.mp h2, not_lt.mp h1⟩
    · rintro ⟨q, hq, hgt, hle⟩
      subst hq
      rw [if_neg (not_lt.mpr hle), if_neg (not_le.mpr hgt)]

/-- An object reporting a hit exactly at the light position, used to
refute the strictly-between reading of the shadow test. -/
def cexBlocker : SceneObject :=
  ⟨fun _ => some ⟨0, 0, 5⟩, fun _ => none, fun _ => Color.BLACK, ⟨none, none⟩⟩

def cexRay : Ray := ⟨⟨0, 0, 0⟩, ⟨0, 0, 1⟩⟩

def cexDestination : Vec3 := ⟨0, 0, 5⟩

lemma cex_norm_five :
    (Vec3.between_points cexRay.source (⟨0, 0, 5⟩ : Vec3)).norm = 5 := by
  show Vec3.norm _ = 5
  rw [Vec3.norm]
  simp [Vec3.between_points, cexRay]

/-- C3 counterexample: the single object's reported hit lies exactly at
the light distance — hence NOT strictly between the epsilon threshold and
the light distance — yet `ray_encounter_obstacle` reports occlusion. -/
theorem shadow_at_exact_light_distance :
    ray_encounter_obstacle cexRay cexDestination [cexBlocker] = true ∧
    cexBlocker.check_collision cexRay = some ⟨0, 0, 5⟩ ∧
    ¬ ((Vec3.between_points cexRay.source (⟨0, 0, 5⟩ : Vec3)).norm <
        (Vec3.between_points cexRay.source cexDestination).norm) := by
  have h5 : (Vec3.between_points cexRay.source (⟨0, 0, 5⟩ : Vec3)).norm = 5 := cex_norm_five
  have h5d : (Vec3.between_points cexRay.source cexDestination).norm = 5 := cex_norm_five
  refine ⟨?_, rfl, ?_⟩
  · unfold ray_encounter_obstacle
    simp only [List.any_cons, List.any_nil, Bool.or_false]
    rw [show cexBlocker.check_collision cexRay = some ⟨0, 0, 5⟩ from rfl]
    simp only [h5, h5d]
    rw [if_neg (by norm_num), if_neg (by norm_num)]
  · rw [h5, h5d]
    norm_num

/-- C8: `launch_ray` terminates, because the depth strictly decreases on
each recursive refraction call and the recursion bottoms out once the
depth goes below zero: a fuel budget of `(depth + 1).toNat + 1` nested
calls always suffices, for every scene and ray. -/
theorem launch_ray_terminates (camera_ray : Ray) (scene : Scene) (depth : ℤ) :
    launchRayFuel ((depth + 1).toNat + 1) camera_ray scene depth =
      some (launch_ray camera_ray scene depth) :=
  launchRayFuel_spec ((depth + 1).toNat) depth rfl camera_ray scene

lemma illuminationFold_all_occluded (object : SceneObject) (surface_point : Vec3)
    (objects : List SceneObject) (camera_ray : Ray) :
    ∀ lights : List LightObject, ∀ total : Color,
      (∀ l ∈ lights, ray_encounter_obstacle (Ray.ray_from_to surface_point l.source)
        l.source objects = true) →
      illuminationFold object surface_point objects camera_ray total lights =
        Except.ok total := by
  intro lights
  induction lights with
  | nil => intro total _; rfl
  | cons l rest ih =>
    intro total h
    have hl : ray_encounter_obstacle (Ray.ray_from_to surface_point l.source)
        l.source objects = true := h l (List.mem_cons_self _ _)
    rw [illuminationFold, illuminationStep, if_pos hl]
    exact ih total fun l' hl' => h l' (List.mem_cons_of_mem _ hl')

/-- C9: when every light of the scene is occluded by the shadow test,
the illumination accumulator returns black.  The object is universally
quantified — in particular its `normal_at` capability may always return
`none` (as in the witness) — so the normal is never consulted and a
missing normal at a fully shadowed point never raises the
no-normal-found error. -/
theorem illumination_all_occluded (object : SceneObject) (surface_point : Vec3)
    (lights : List LightObject) (objects : List SceneObject) (camera_ray : Ray)
    (h : ∀ l ∈ lights, ray_encounter_obstacle (Ray.ray_from_to surface_point l.source)
      l.source objects = true) :
    illumination_from_lights object surface_point lights objects camera_ray =
      Except.ok Color.BLACK :=
  illuminationFold_all_occluded object surface_point objects camera_ray lights Color.BLACK h

lemma illuminationFold_error_of (object : SceneObject) (surface_point : Vec3)
    (objects : List SceneObject) (camera_ray : Ray)
    (hn : object.normal_at surface_point = none) :
    ∀ lights : List LightObject, ∀ total : Color,
      (∃ l ∈ lights, ray_encounter_obstacle (Ray.ray_from_to surface_point l.source)
        l.source objects = false) →
      illuminationFold object surface_point objects camera_ray total lights =
        Except.error "No normal found" := by
  intro lights
  induction lights with
  | nil => rintro total ⟨l, hl, _⟩; exact absurd hl (List.not_mem_nil l)
  | cons l rest ih =>
    rintro total ⟨l', hl', hunocc⟩
    by_cases hocc : ray_encounter_obstacle (Ray.ray_from_to surface_point l.source)
        l.source objects = true
    · rw [illuminationFold, illuminationStep, if_pos hocc]
      rcases List.mem_cons.mp hl' with rfl | hmem
      · rw [hocc] at hunocc; cases hunocc
      · exact ih total ⟨l', hmem, hunocc⟩
    · rw [illuminationFold, illuminationStep, if_neg hocc, hn]



/-- C7: when the first ray yielded by the camera hits an object whose
`normal_at` capability returns `none` at the hit point while some light
is unoccluded, the illumination accumulator returns the fatal
no-normal-found error (the `NormalNotFound` condition), and `render`
propagates it: the whole call aborts with that error and an empty draw
trace, rather than skipping the pixel and continuing. -/
theorem render_aborts_on_missing_normal
    (scene : Scene) (canvas : DrawCanvas) (options : RenderOptions)
    (x y : ℕ) (r : Ray) (rest : List (ℕ × ℕ × Ray))
    (o : SceneObject) (p : Vec3)
    (hlights : scene.lights ≠ [])
    (hcam : scene.camera.generate_rays options.canvas_width options.canvas_height =
      (x, y, r) :: rest)
    (hhit : search_object_collision r scene.objects = some (o, p))
    (hnormal : o.normal_at p = none)
    (hunocc : ∃ l ∈ scene.lights, ray_encounter_obstacle (Ray.ray_from_to p l.source)
      l.source scene.objects = false) :
    illumination_from_lights o p scene.lights scene.objects r =
      Except.error "No normal found" ∧
    render scene canvas options = ([], Except.error "No normal found") := by
  have hill : illumination_from_lights o p scene.lights scene.objects r =
      Except.error "No normal found" :=
    illuminationFold_error_of o p scene.objects r hnormal scene.lights Color.BLACK hunocc
  have hlaunch : launch_ray r scene (scene.options.maximum_light_recursion : ℤ) =
      Except.error "No normal found" := by
    rw [launch_ray, if_neg (by omega)]
    simp only [hhit, hill]
  refine ⟨hill, ?_⟩
  unfold render
  have hne : scene.lights.isEmpty = false := by
    cases hl : scene.lights with
    | nil => exact absurd hl hlights
    | cons a as => rfl
  rw [hne]
  simp only [Bool.false_eq_true, if_false, hcam]
  rw [renderLoop]
  simp only [hlaunch]



lemma search_single (ray : Ray) (o : SceneObject) (p : Vec3)
    (hc : o.check_collision ray = some p)
    (hd : ¬ (Vec3.distance p ray.source ≤ 1e-12)) :
    search_object_collision ray [o] = some (o, p) := by
  unfold search_object_collision
  rw [collisionFold, hc]
  simp only [if_neg hd]
  rfl

lemma obstacle_single_false_of_near (ray : Ray) (dest : Vec3) (o : SceneObject) (p : Vec3)
    (hc : o.check_collision ray = some p)
    (hd : (Vec3.between_points ray.source p).norm ≤ 1e-12) :
    ray_encounter_obstacle ray dest [o] = false := by
  unfold ray_encounter_obstacle
  simp only [List.any_cons, List.any_nil, Bool.or_false, hc]
  by_cases h1 : (Vec3.between_points ray.source p).norm >
      (Vec3.between_points ray.source dest).norm
  · rw [if_pos h1]
  · rw [if_neg h1, if_pos hd]

lemma obstacle_single_true (ray : Ray) (dest : Vec3) (o : SceneObject) (p : Vec3)
    (hc : o.check_collision ray = some p)
    (h1 : ¬ (Vec3.between_points ray.source p).norm >
      (Vec3.between_points ray.source dest).norm)
    (h2 : ¬ (Vec3.between_points ray.source p).norm ≤ 1e-12) :
    ray_encounter_obstacle ray dest [o] = true := by
  unfold ray_encounter_obstacle
  simp only [List.any_cons, List.any_nil, Bool.or_false, hc]
  rw [if_neg h1, if_neg h2]

/-- An object whose surface normal capability always fails. -/
def objNoNormal : SceneObject :=
  ⟨fun _ => some ⟨0, 0, 5⟩, fun _ => none, fun _ => Color.BLACK, ⟨none, none⟩⟩

def camera7 : Camera := ⟨fun _ _ => [(0, 0, sampleRay)]⟩

def scene7 : Scene := ⟨camera7, [objNoNormal], [sampleLight], sampleSceneOptions⟩

lemma dist_five : Vec3.distance ⟨0, 0, 5⟩ ⟨0, 0, 0⟩ = 5 := by
  rw [Vec3.distance]
  simp

theorem render_aborts_on_missing_normal_witness :
    illumination_from_lights objNoNormal ⟨0, 0, 5⟩ scene7.lights scene7.objects sampleRay =
      Except.error "No normal found" ∧
    render scene7 okCanvas sampleRenderOptions = ([], Except.error "No normal found") := by
  refine render_aborts_on_missing_normal scene7 okCanvas sampleRenderOptions
    0 0 sampleRay [] objNoNormal ⟨0, 0, 5⟩ (by simp [scene7]) rfl ?_ rfl ?_
  · exact search_single sampleRay objNoNormal ⟨0, 0, 5⟩ rfl
      (by rw [show sampleRay.source = ⟨0, 0, 0⟩ from rfl, dist_five]; norm_num)
  · refine ⟨sampleLight, by simp [scene7], ?_⟩
    refine obstacle_single_false_of_near _ _ objNoNormal ⟨0, 0, 5⟩ rfl ?_
    rw [show (Ray.ray_from_to ⟨0, 0, 5⟩ sampleLight.source).source = ⟨0, 0, 5⟩ from rfl]
    have : Vec3.between_points (⟨0, 0, 5⟩ : Vec3) ⟨0, 0, 5⟩ = ⟨0, 0, 0⟩ := by
      simp [Vec3.between_points]
    rw [this]
    rw [show Vec3.norm ⟨0, 0, 0⟩ = 0 by rw [Vec3.norm]; simp]
    norm_num

/-- The object whose illumination is being computed in the C9 witness;
its normal capability always fails, yet no error is raised. -/
def shadedObject : SceneObject :=
  ⟨fun _ => none, fun _ => none, fun _ => Color.BLACK, ⟨none, none⟩⟩

/-- An object standing between the surface point and the light. -/
def occluder : SceneObject :=
  ⟨fun _ => some ⟨0, 0, 4⟩, fun _ => none, fun _ => Color.BLACK, ⟨none, none⟩⟩

theorem illumination_all_occluded_witness :
    (∀ l ∈ [sampleLight], ray_encounter_obstacle
      (Ray.ray_from_to ⟨0, 0, 0⟩ l.source) l.source [occluder] = true) ∧
    illumination_from_lights shadedObject ⟨0, 0, 0⟩ [sampleLight] [occluder] sampleRay =
      Except.ok Color.BLACK := by
  have hocc : ∀ l ∈ [sampleLight], ray_encounter_obstacle
      (Ray.ray_from_to ⟨0, 0, 0⟩ l.source) l.source [occluder] = true := by
    intro l hl
    rw [List.mem_singleton] at hl
    subst hl
    refine obstacle_single_true _ _ occluder ⟨0, 0, 4⟩ rfl ?_ ?_
    · rw [show (Ray.ray_from_to ⟨0, 0, 0⟩ sampleLight.source).source = ⟨0, 0, 0⟩ from rfl]
      rw [show Vec3.between_points (⟨0, 0, 0⟩ : Vec3) ⟨0, 0, 4⟩ = ⟨0, 0, 4⟩ by
        simp [Vec3.between_points]]
      rw [show Vec3.between_points (⟨0, 0, 0⟩ : Vec3) sampleLight.source = ⟨0, 0, 10⟩ by
        simp [Vec3.between_points, sampleLight]]
      rw [show Vec3.norm ⟨0, 0, 4⟩ = 4 by rw [Vec3.norm]; simp]
      rw [show Vec3.norm ⟨0, 0, 10⟩ = 10 by rw [Vec3.norm]; simp]
      norm_num
    · rw [show (Ray.ray_from_to ⟨0, 0, 0⟩ sampleLight.source).source = ⟨0, 0, 0⟩ from rfl]
      rw [show Vec3.between_points (⟨0, 0, 0⟩ : Vec3) ⟨0, 0, 4⟩ = ⟨0, 0, 4⟩ by
        simp [Vec3.between_points]]
      rw [show Vec3.norm ⟨0, 0, 4⟩ = 4 by rw [Vec3.norm]; simp]
      norm_num
  exact ⟨hocc, illumination_all_occluded shadedObject ⟨0, 0, 0⟩ [sampleLight] [occluder]
    sampleRay hocc⟩

/-- A hit that survives the `1e-12` self-intersection discard. -/
abbrev ValidHit (ray : Ray) (o : SceneObject) (q : Vec3) : Prop :=
  o.check_collision ray = some q ∧ 1e-12 < Vec3.distance q ray.source

lemma collisionFold_cases (ray : Ray) :
    ∀ objects : List SceneObject, ∀ acc : Option (SceneObject × Vec3),
      (collisionFold ray acc objects = acc ∧
        ∀ o ∈ objects, ∀ q, ValidHit ray o q →
          ∃ a ap, acc = some (a, ap) ∧
            Vec3.distance ap ray.source ≤ Vec3.distance q ray.source)
      ∨
      (∃ pre o p post, objects = pre ++ o :: post ∧
        collisionFold ray acc objects = some (o, p) ∧ ValidHit ray o p ∧
        (∀ a ap, acc = some (a, ap) →
          Vec3.distance p ray.source < Vec3.distance ap ray.source) ∧
        (∀ o' ∈ pre, ∀ q, ValidHit ray o' q →
          Vec3.distance p ray.source < Vec3.distance q ray.source) ∧
        (∀ o' ∈ post, ∀ q, ValidHit ray o' q →
          Vec3.distance p ray.source ≤ Vec3.distance q ray.source)) := by
  intro objects
  induction objects with
  | nil =>
    intro acc
    exact Or.inl ⟨rfl, fun o ho => absurd ho (List.not_mem_nil o)⟩
  | cons o rest ih =>
    intro acc
    cases hc : o.check_collision ray with
    | none =>
      have step : collisionFold ray acc (o :: rest) = collisionFold ray acc rest := by
        rw [collisionFold, hc]
      have honone : ∀ q, ¬ ValidHit ray o q := by
        rintro q ⟨hq, _⟩; rw [hc] at hq; cases hq
      rcases ih acc with ⟨heq, hmin⟩ | ⟨pre, o', p', post, hsplit, heq, hvalid, haccb, hpre, hpost⟩
      · refine Or.inl ⟨step.trans heq, ?_⟩
        intro o'' ho'' q hq
        rcases List.mem_cons.mp ho'' with rfl | hmem
        · exact absurd hq (honone q)
        · exact hmin o'' hmem q hq
      · refine Or.inr ⟨o :: pre, o', p', post, by rw [hsplit]; rfl, step.trans heq, hvalid,
          haccb, ?_, hpost⟩
        intro o'' ho'' q hq
        rcases List.mem_cons.mp ho'' with rfl | hmem
        · exact absurd hq (honone q)
        · exact hpre o'' hmem q hq
    | some cp =>
      by_cases hle : Vec3.distance cp ray.source ≤ 1e-12
      · have step : collisionFold ray acc (o :: rest) = collisionFold ray acc rest := by
          rw [collisionFold, hc]
          simp only [if_pos hle]
        have honone : ∀ q, ¬ ValidHit ray o q := by
          rintro q ⟨hq, hgt⟩; rw [hc] at hq
          cases hq
          exact absurd hgt (not_lt.mpr hle)
        rcases ih acc with ⟨heq, hmin⟩ | ⟨pre, o', p', post, hsplit, heq, hvalid, haccb, hpre, hpost⟩
        · refine Or.inl ⟨step.trans heq, ?_⟩
          intro o'' ho'' q hq
          rcases List.mem_cons.mp ho'' with rfl | hmem
          · exact absurd hq (honone q)
          · exact hmin o'' hmem q hq
        · refine Or.inr ⟨o :: pre, o', p', post, by rw [hsplit]; rfl, step.trans heq, hvalid,
            haccb, ?_, hpost⟩
          intro o'' ho'' q hq
          rcases List.mem_cons.mp ho'' with rfl | hmem
          · exact absurd hq (honone q)
          · exact hpre o'' hmem q hq
      · have hov : ValidHit ray o cp := ⟨hc, not_le.mp hle⟩
        have honly : ∀ q, ValidHit ray o q → q = cp := by
          rintro q ⟨hq, _⟩; rw [hc] at hq
          exact (Option.some_injective _ hq).symm
        cases acc with
        | none =>
          have step : collisionFold ray none (o :: rest) =
              collisionFold ray (some (o, cp)) rest := by
            rw [collisionFold, hc]
            simp only [if_neg hle]
          rcases ih (some (o, cp)) with ⟨heq, hmin⟩ |
            ⟨pre, o', p', post, hsplit, heq, hvalid, haccb, hpre, hpost⟩
          · refine Or.inr ⟨[], o, cp, rest, rfl, step.trans heq, hov, ?_, ?_, ?_⟩
            · intro a ap h; exact Option.noConfusion h
            · intro o'' ho''; exact absurd ho'' (List.not_mem_nil o'')
            · intro o'' hmem q hq
              obtain ⟨a, ap, hap, hlea⟩ := hmin o'' hmem q hq
              injection hap with h1
              injection h1 with h2 h3
              subst h2
              subst h3
              exact hlea
          · refine Or.inr ⟨o :: pre, o', p', post, by rw [hsplit]; rfl, step.trans heq, hvalid,
              fun a ap h => Option.noConfusion h, ?_, hpost⟩
            intro o'' ho'' q hq
            rcases List.mem_cons.mp ho'' with rfl | hmem
            · rw [honly q hq]
              exact haccb o'' cp rfl
            · exact hpre o'' hmem q hq
        | some accp =>
          obtain ⟨a, ap⟩ := accp
          by_cases hlt : Vec3.distance cp ray.source < Vec3.distance ap ray.source
          · have step : collisionFold ray (some (a, ap)) (o :: rest) =
                collisionFold ray (some (o, cp)) rest := by
              rw [collisionFold, hc]
              simp only [if_neg hle, if_pos hlt]
            rcases ih (some (o, cp)) with ⟨heq, hmin⟩ |
              ⟨pre, o', p', post, hsplit, heq, hvalid, haccb, hpre, hpost⟩
            · refine Or.inr ⟨[], o, cp, rest, rfl, step.trans heq, hov, ?_, ?_, ?_⟩
              · intro a' ap' h
                injection h with h1
                injection h1 with h2 h3
                rw [← h3]
                exact hlt
              · intro o'' ho''; exact absurd ho'' (List.not_mem_nil o'')
              · intro o'' hmem q hq
                obtain ⟨a', ap', hap, hlea⟩ := hmin o'' hmem q hq
                injection hap with h1
                injection h1 with h2 h3
                subst h2
                subst h3
                exact hlea
            · refine Or.inr ⟨o :: pre, o', p', post, by rw [hsplit]; rfl, step.trans heq, hvalid,
                ?_, ?_, hpost⟩
              · intro a' ap' h
                injection h with h1
                injection h1 with h2 h3
                rw [← h3]
                exact (haccb o cp rfl).trans hlt
              · intro o'' ho'' q hq
                rcases List.mem_cons.mp ho'' with rfl | hmem
                · rw [honly q hq]
                  exact haccb o'' cp rfl
                · exact hpre o'' hmem q hq
          · have step : collisionFold ray (some (a, ap)) (o :: rest) =
                collisionFold ray (some (a, ap)) rest := by
              rw [collisionFold, hc]
              simp only [if_neg hle, if_neg hlt]
            rcases ih (some (a, ap)) with ⟨heq, hmin⟩ |
              ⟨pre, o', p', post, hsplit, heq, hvalid, haccb, hpre, hpost⟩
            · refine Or.inl ⟨step.trans heq, ?_⟩
              intro o'' ho'' q hq
              rcases List.mem_cons.mp ho'' with rfl | hmem
              · exact ⟨a, ap, rfl, by rw [honly q hq]; exact not_lt.mp hlt⟩
              · exact hmin o'' hmem q hq
            · refine Or.inr ⟨o :: pre, o', p', post, by rw [hsplit]; rfl, step.trans heq, hvalid,
                haccb, ?_, hpost⟩
              intro o'' ho'' q hq
              rcases List.mem_cons.mp ho'' with rfl | hmem
              · rw [honly q hq]
                exact lt_of_lt_of_le (haccb a ap rfl) (not_lt.mp hlt)
              · exact hpre o'' hmem q hq



/-- C2: the nearest-hit resolver discards every hit at distance
`≤ 1e-12` from the ray source, returns `none` exactly when no hit
survives, and otherwise returns a surviving hit of minimum distance;
the returned object splits the list as `pre ++ o :: post` where every
surviving hit of an earlier object is at strictly greater distance, so
on ties the first-encountered object wins (strict less-than). -/
theorem search_object_collision_spec (ray : Ray) (objects : List SceneObject) :
    (search_object_collision ray objects = none →
      ∀ o ∈ objects, ∀ p, o.check_collision ray = some p →
        Vec3.distance p ray.source ≤ 1e-12) ∧
    (∀ o p, search_object_collision ray objects = some (o, p) →
      ∃ pre post, objects = pre ++ o :: post ∧
        o.check_collision ray = some p ∧
        1e-12 < Vec3.distance p ray.source ∧
        (∀ o' ∈ objects, ∀ q, o'.check_collision ray = some q →
          1e-12 < Vec3.distance q ray.source →
          Vec3.distance p ray.source ≤ Vec3.distance q ray.source) ∧
        (∀ o' ∈ pre, ∀ q, o'.check_collision ray = some q →
          1e-12 < Vec3.distance q ray.source →
          Vec3.distance p ray.source < Vec3.distance q ray.source)) := by
  rcases collisionFold_cases ray objects none with ⟨heq, hmin⟩ |
    ⟨pre, o, p, post, hsplit, heq, hvalid, haccb, hpre, hpost⟩
  · constructor
    · intro _ o ho q hq
      by_contra hgt
      obtain ⟨a, ap, hap, _⟩ := hmin o ho q ⟨hq, not_le.mp hgt⟩
      exact Option.noConfusion hap
    · intro o p hsome
      unfold search_object_collision at hsome
      rw [heq] at hsome
      exact Option.noConfusion hsome
  · constructor
    · intro hnone
      unfold search_object_collision at hnone
      rw [heq] at hnone
      exact Option.noConfusion hnone
    · intro o' p' hsome
      unfold search_object_collision at hsome
      rw [heq] at hsome
      injection hsome with h1
      injection h1 with h2 h3
      subst h2
      subst h3
      refine ⟨pre, post, hsplit, hvalid.1, hvalid.2, ?_, ?_⟩
      · intro o'' hmem q hq hqd
        rw [hsplit] at hmem
        rcases List.mem_append.mp hmem with hpre' | hcons
        · exact le_of_lt (hpre o'' hpre' q ⟨hq, hqd⟩)
        · rcases List.mem_cons.mp hcons with rfl | hpost'
          · rw [hvalid.1] at hq
            injection hq with hqp
            rw [← hqp]
          · exact hpost o'' hpost' q ⟨hq, hqd⟩
      · intro o'' hmem q hq hqd
        exact hpre o'' hmem q ⟨hq, hqd⟩

/-- An object whose reported hit is farther from the ray source. -/
def objFar : SceneObject :=
  ⟨fun _ => some ⟨0, 0, 5⟩, fun _ => none, fun _ => Color.BLACK, ⟨none, none⟩⟩

/-- An object whose reported hit is nearer to the ray source. -/
def objNear : SceneObject :=
  ⟨fun _ => some ⟨0, 0, 3⟩, fun _ => none, fun _ => Color.BLACK, ⟨none, none⟩⟩

lemma dist_three : Vec3.distance ⟨0, 0, 3⟩ ⟨0, 0, 0⟩ = 3 := by
  rw [Vec3.distance]
  simp

lemma search_pair_replace (ray : Ray) (o1 o2 : SceneObject) (p1 p2 : Vec3)
    (hc1 : o1.check_collision ray = some p1)
    (hc2 : o2.check_collision ray = some p2)
    (hd1 : ¬ Vec3.distance p1 ray.source ≤ 1e-12)
    (hd2 : ¬ Vec3.distance p2 ray.source ≤ 1e-12)
    (hlt : Vec3.distance p2 ray.source < Vec3.distance p1 ray.source) :
    search_object_collision ray [o1, o2] = some (o2, p2) := by
  unfold search_object_collision
  rw [collisionFold, hc1]
  simp only [if_neg hd1]
  rw [collisionFold, hc2]
  simp only [if_neg hd2, if_pos hlt]
  rfl

lemma search_pair_eval :
    search_object_collision sampleRay [objFar, objNear] = some (objNear, ⟨0, 0, 3⟩) := by
  refine search_pair_replace sampleRay objFar objNear ⟨0, 0, 5⟩ ⟨0, 0, 3⟩ rfl rfl ?_ ?_ ?_
  · rw [show sampleRay.source = ⟨0, 0, 0⟩ from rfl, dist_five]; norm_num
  · rw [show sampleRay.source = ⟨0, 0, 0⟩ from rfl, dist_three]; norm_num
  · rw [show sampleRay.source = ⟨0, 0, 0⟩ from rfl, dist_three, dist_five]; norm_num

theorem search_object_collision_spec_witness :
    ∃ pre post, ([objFar, objNear] : List SceneObject) = pre ++ objNear :: post ∧
      objNear.check_collision sampleRay = some ⟨0, 0, 3⟩ ∧
      1e-12 < Vec3.distance ⟨0, 0, 3⟩ sampleRay.source ∧
      (∀ o' ∈ [objFar, objNear], ∀ q, o'.check_collision sampleRay = some q →
        1e-12 < Vec3.distance q sampleRay.source →
        Vec3.distance ⟨0, 0, 3⟩ sampleRay.source ≤ Vec3.distance q sampleRay.source) ∧
      (∀ o' ∈ pre, ∀ q, o'.check_collision sampleRay = some q →
        1e-12 < Vec3.distance q sampleRay.source →
        Vec3.distance ⟨0, 0, 3⟩ sampleRay.source < Vec3.distance q sampleRay.source) :=
  (search_object_collision_spec sampleRay [objFar, objNear]).2 objNear ⟨0, 0, 3⟩
    search_pair_eval

/-- C1: when the nearest hit object carries a Transparency effect and
the depth is nonnegative, `launch_ray` adds to the direct illumination
the alpha-scaled result of recursively evaluating, at depth − 1, a
continuation ray along the same direction whose origin is the point
found by a second nearest-hit search along the same (original) camera
ray.  That second search is the call `search_object_collision camera_ray
scene.objects` of the hypothesis, so the point it finds — called the
exit point by the source — is the entry collision point `p` itself, not
a geometric exit point (the spec's own open question notes this). -/
theorem launch_ray_transparency (camera_ray : Ray) (scene : Scene) (depth : ℤ)
    (o : SceneObject) (p : Vec3) (t : Transparency)
    (hd : 0 ≤ depth)
    (hhit : search_object_collision camera_ray scene.objects = some (o, p))
    (htr : o.effects.transparency = some t) :
    launch_ray camera_ray scene depth =
      (illumination_from_lights o p scene.lights scene.objects camera_ray).bind fun illum =>
        (launch_ray ⟨p, camera_ray.direction⟩ scene (depth - 1)).map fun rec_color =>
          (match scene.options.ambient_light with
           | none => Color.BLACK + illum + t.alpha * rec_color
           | some ambient_light =>
             Color.BLACK + illum + t.alpha * rec_color + ambient_light * o.color_at p) := by
  rw [launch_ray, if_neg (by omega)]
  simp only [hhit]
  cases hillum : illumination_from_lights o p scene.lights scene.objects camera_ray with
  | error e => simp [hillum, Except.bind]
  | ok illum =>
    simp only [hillum, htr, Except.bind]
    cases hrec : launch_ray ⟨p, camera_ray.direction⟩ scene (depth - 1) with
    | error e => simp [Except.map]
    | ok rc => simp [Except.map]



/-- A transparent object (alpha 0.5) reporting a hit at distance 5. -/
def objGlass : SceneObject :=
  ⟨fun _ => some ⟨0, 0, 5⟩, fun _ => none, fun _ => Color.BLACK, ⟨none, some ⟨0.5⟩⟩⟩

def glassScene : Scene := ⟨sampleCamera, [objGlass], [sampleLight], sampleSceneOptions⟩

theorem launch_ray_transparency_witness :
    launch_ray sampleRay glassScene 0 =
      (illumination_from_lights objGlass ⟨0, 0, 5⟩ glassScene.lights glassScene.objects
        sampleRay).bind fun illum =>
        (launch_ray ⟨⟨0, 0, 5⟩, sampleRay.direction⟩ glassScene (0 - 1)).map fun rec_color =>
          (match glassScene.options.ambient_light with
           | none => Color.BLACK + illum + (⟨0.5⟩ : Transparency).alpha * rec_color
           | some ambient_light =>
             Color.BLACK + illum + (⟨0.5⟩ : Transparency).alpha * rec_color +
               ambient_light * objGlass.color_at ⟨0, 0, 5⟩) :=
  launch_ray_transparency sampleRay glassScene 0 objGlass ⟨0, 0, 5⟩ ⟨0.5⟩ (by decide)
    (search_single sampleRay objGlass ⟨0, 0, 5⟩ rfl
      (by rw [show sampleRay.source = ⟨0, 0, 0⟩ from rfl, dist_five]; norm_num))
    rfl

lemma renderLoop_trace_mem (scene : Scene) (canvas : DrawCanvas) (options : RenderOptions) :
    ∀ rays : List (ℕ × ℕ × Ray), ∀ call ∈ (renderLoop scene canvas options rays).1,
      ∃ x y r, (x, y, r) ∈ rays ∧ call.1 = x ∧ call.2.1 = options.canvas_height - y := by
  intro rays
  induction rays with
  | nil =>
    intro call hc
    simp [renderLoop] at hc
  | cons head tl ih =>
    obtain ⟨x, y, r⟩ := head
    intro call hc
    rw [renderLoop] at hc
    cases hl : launch_ray r scene (scene.options.maximum_light_recursion : ℤ) with
    | error e => simp only [hl] at hc; simp at hc
    | ok color =>
      simp only [hl] at hc
      cases hdraw : canvas.draw x (options.canvas_height - y) color with
      | error e =>
        simp only [hdraw] at hc
        rw [List.mem_singleton] at hc
        exact ⟨x, y, r, List.mem_cons_self _ _, by rw [hc], by rw [hc]⟩
      | ok u =>
        simp only [hdraw] at hc
        rcases List.mem_cons.mp hc with rfl | hmem
        · exact ⟨x, y, r, List.mem_cons_self _ _, rfl, rfl⟩
        · obtain ⟨x', y', r', hmem', h1, h2⟩ := ih call hmem
          exact ⟨x', y', r', List.mem_cons_of_mem _ hmem', h1, h2⟩

/-- C10: every draw invocation performed by `render` for a yielded pixel
`(x, y)` uses row index `canvas_height - y` (natural-number
subtraction, as the `u32` arithmetic of the source); consequently a
yielded `y = 0` produces the row index `canvas_height` — one past the
last row of a canvas with rows `0` to `canvas_height - 1` — and when
every yielded `y` is below `canvas_height`, row `0` is never drawn. -/
theorem render_draw_row (scene : Scene) (canvas : DrawCanvas) (options : RenderOptions) :
    ∀ call ∈ (render scene canvas options).1,
      ∃ x y r, (x, y, r) ∈ scene.camera.generate_rays options.canvas_width
          options.canvas_height ∧
        call.1 = x ∧ call.2.1 = options.canvas_height - y ∧
        (y = 0 → call.2.1 = options.canvas_height) ∧
        (y < options.canvas_height → 0 < call.2.1) := by
  intro call hc
  unfold render at hc
  by_cases hempty : scene.lights.isEmpty
  · rw [if_pos hempty] at hc
    simp at hc
  · rw [if_neg hempty] at hc
    obtain ⟨x, y, r, hmem, h1, h2⟩ := renderLoop_trace_mem scene canvas options _ call hc
    refine ⟨x, y, r, hmem, h1, h2, ?_, ?_⟩
    · intro hy; rw [h2, hy, Nat.sub_zero]
    · intro hy; rw [h2]; omega

def scene10 : Scene :=
  ⟨⟨fun _ _ => [(2, 1, sampleRay)]⟩, [], [sampleLight], sampleSceneOptions⟩

lemma render10_eval :
    render scene10 okCanvas sampleRenderOptions =
      ([(2, 4, sampleSceneOptions.world_color)], Except.ok ()) := by
  unfold render
  rw [show scene10.lights.isEmpty = false from rfl]
  simp only [Bool.false_eq_true, if_false]
  rw [show scene10.camera.generate_rays sampleRenderOptions.canvas_width
    sampleRenderOptions.canvas_height = [(2, 1, sampleRay)] from rfl]
  rw [renderLoop]
  have hl : launch_ray sampleRay scene10 (scene10.options.maximum_light_recursion : ℤ) =
      Except.ok sampleSceneOptions.world_color := by
    rw [launch_ray, if_neg (by simp [scene10, sampleSceneOptions])]
    rfl
  simp only [hl]
  rfl

theorem render_draw_row_witness :
    ∃ x y r, (x, y, r) ∈ scene10.camera.generate_rays sampleRenderOptions.canvas_width
        sampleRenderOptions.canvas_height ∧
      (((2 : ℕ), (4 : ℕ), sampleSceneOptions.world_color) : ℕ × ℕ × Color).1 = x ∧
      (((2 : ℕ), (4 : ℕ), sampleSceneOptions.world_color) : ℕ × ℕ × Color).2.1 =
        sampleRenderOptions.canvas_height - y ∧
      (y = 0 → (((2 : ℕ), (4 : ℕ), sampleSceneOptions.world_color) : ℕ × ℕ × Color).2.1 =
        sampleRenderOptions.canvas_height) ∧
      (y < sampleRenderOptions.canvas_height →
        0 < (((2 : ℕ), (4 : ℕ), sampleSceneOptions.world_color) : ℕ × ℕ × Color).2.1) :=
  render_draw_row scene10 okCanvas sampleRenderOptions
    (2, 4, sampleSceneOptions.world_color) (by rw [render10_eval]; exact List.mem_singleton.mpr rfl)

end RayTracer
